import Mathlib

/-!
Verification of the fox-monitor host telemetry sampler.

Shallow embedding of `src/main.rs`, `src/logger.rs` and `src/channels.rs`.
The sysinfo provider is modelled as an explicit `World` of observations; a
refresh of a handle reads from that world.  Float payloads (f32/f64 fields)
are carried opaquely as rationals, since no claim computes on them; machine
integer fields are Nat (all arithmetic on them here is division by 1024,
which cannot overflow or wrap).  A run is modelled as the list of events
(handle constructions, refreshes, channel publishes) it performs.
-/

namespace FoxMonitor

/-! ## Provider-side observations (what the sysinfo crate would report) -/

/-- One logical CPU as reported by the provider (sysinfo `Cpu`). -/
structure CoreInfo where
  usage : Rat
  frequency : Nat
  vendor_id : String
  brand : String
deriving DecidableEq

/-- One process table entry as reported by the provider (sysinfo `Process`).
`parent` is `none` when the OS reports no parent pid. -/
structure ProcInfo where
  pid : Nat
  parent : Option Nat
  name : String
  status : String
  cpu_usage : Rat
  memory : Nat
  start_time : Nat
  run_time : Nat
deriving DecidableEq

/-- One thermal sensor as reported by the provider (sysinfo `Component`).
`temperature` is `none` when the sensor reports no value. -/
structure ComponentInfo where
  label : String
  temperature : Option Rat
deriving DecidableEq

/-- One disk as reported by the provider (sysinfo `Disk`).  `name` and
`mount_point` are `none` when not representable as text (`to_str` fails). -/
structure DiskInfo where
  name : Option String
  mount_point : Option String
  total_read_bytes : Nat
  total_written_bytes : Nat
  read_bytes : Nat
  written_bytes : Nat
deriving DecidableEq

/-- One network interface as reported by the provider (sysinfo `NetworkData`). -/
structure NetInfo where
  interface_name : String
  mac_address : String
  received : Nat
  transmitted : Nat
  total_received : Nat
  total_transmitted : Nat
deriving DecidableEq

/-- The state readable through the shared `System` handle after a refresh. -/
structure SysProviderState where
  global_cpu_usage : Rat
  physical_core_count : Option Nat
  cpus : List CoreInfo
  total_memory : Nat
  available_memory : Nat
  used_memory : Nat
  total_swap : Nat
  used_swap : Nat
  processes : List ProcInfo
deriving DecidableEq

/-- Static `System::` queries (OS identity facts plus live uptime and load).
Each `Option String` is `none` when the OS cannot report the value. -/
structure StaticSysInfo where
  name : Option String
  kernel_version : Option String
  os_version : Option String
  long_os_version : Option String
  host_name : Option String
  boot_time : Nat
  uptime : Nat
  load_one : Rat
  load_five : Rat
  load_fifteen : Rat
deriving DecidableEq

/-- Everything the provider can observe at one instant. -/
structure World where
  sys : SysProviderState
  comps : List ComponentInfo
  disks : List DiskInfo
  nets : List NetInfo
  static : StaticSysInfo
deriving DecidableEq

/-! ## Published record types (channels.rs / main.rs / logger.rs structs) -/

structure CoreStats where
  usage : Rat
  frequency_mhz : Nat
  vendor_id : String
  brand : String
deriving DecidableEq

structure CpuStats where
  usage : Rat
  physical_cores : Nat
  cores : List CoreStats
deriving DecidableEq

structure MemoryStats where
  total_kb : Nat
  available_kb : Nat
  used_kb : Nat
  swap_total_kb : Nat
  swap_used_kb : Nat
deriving DecidableEq

structure ComponentStats where
  label : String
  temperature : Rat
deriving DecidableEq

structure ComponentsStats where
  components : List ComponentStats
deriving DecidableEq

structure DiskStats where
  name : String
  mount_point : String
  total_read_kb : Nat
  total_written_kb : Nat
  read_kb : Nat
  written_kb : Nat
deriving DecidableEq

structure DisksStats where
  disks : List DiskStats
deriving DecidableEq

structure NetworkStats where
  interface_name : String
  mac_address : String
  received : Nat
  transmitted : Nat
  total_received : Nat
  total_transmitted : Nat
deriving DecidableEq

structure NetworksStats where
  networks : List NetworkStats
deriving DecidableEq

structure ProcessStats where
  pid : Nat
  parent_pid : String
  name : String
  status : String
  cpu_usage : Rat
  memory_usage_kb : Nat
  start_time_seconds : Nat
  run_time_seconds : Nat
deriving DecidableEq

structure ProcessesStats where
  processes : List ProcessStats
deriving DecidableEq

structure SystemStats where
  name : String
  kernel_version : String
  os_version : String
  os_long_version : String
  host_name : String
  kernel : String
  boot_time_seconds : Nat
  uptime_seconds : Nat
  load_avg_one : Rat
  load_avg_five : Rat
  load_avg_fifteen : Rat
deriving DecidableEq

/-! ## Record builders

These embed the struct-building expressions of `log_cpu_info`,
`log_memory_info`, `log_components_info`, `log_disks_info`,
`log_networks_info`, `log_processes_info` and `log_system_info` in main.rs.
The bodies of `LoggerCollection::log_all` in logger.rs build each record
with character-for-character identical field expressions, so the same
builders embed both files. -/

/-- The `physical_cores` field expression of `log_cpu_info`:
`System::physical_core_count(..).map(to_string).unwrap_or("Unknown").trim().parse::<u16>().unwrap_or(0)`.
A `None` count becomes the string "Unknown", which fails to parse as u16,
so `unwrap_or` yields 0; a present count round-trips through its decimal
string (trim is the identity on it) and parses back exactly when it fits
in u16, with the parse overflow error again defaulted to 0. -/
def physicalCoresField (pc : Option Nat) : Nat :=
  match pc with
  | some c => if c < 65536 then c else 0
  | none => 0

/-- Record built by `log_cpu_info` (after `sys.refresh_cpu_all()`). -/
def mkCpuStats (s : SysProviderState) : CpuStats :=
  { usage := s.global_cpu_usage
    physical_cores := physicalCoresField s.physical_core_count
    cores := s.cpus.map fun c =>
      { usage := c.usage
        frequency_mhz := c.frequency
        vendor_id := c.vendor_id
        brand := c.brand } }

/-- Record built by `log_memory_info` (after `sys.refresh_memory()`). -/
def mkMemoryStats (s : SysProviderState) : MemoryStats :=
  { total_kb := s.total_memory
    available_kb := s.available_memory
    used_kb := s.used_memory
    swap_total_kb := s.total_swap
    swap_used_kb := s.used_swap }

/-- One element of the `components` list of `log_components_info`:
`temperature: c.temperature().unwrap_or(0.0)`. -/
def mkComponentStat (c : ComponentInfo) : ComponentStats :=
  { label := c.label
    temperature := c.temperature.getD 0 }

/-- Record built by `log_components_info` (after `components.refresh(true)`). -/
def mkComponentsStats (cs : List ComponentInfo) : ComponentsStats :=
  { components := cs.map mkComponentStat }

/-- One element of the `disks` list of `log_disks_info`:
`name`/`mount_point` fall back to "Unknown" when `to_str` fails, byte
counters are divided by 1024. -/
def mkDiskStat (d : DiskInfo) : DiskStats :=
  { name := d.name.getD "Unknown"
    mount_point := d.mount_point.getD "Unknown"
    total_read_kb := d.total_read_bytes / 1024
    total_written_kb := d.total_written_bytes / 1024
    read_kb := d.read_bytes / 1024
    written_kb := d.written_bytes / 1024 }

/-- Record built by `log_disks_info` (after `disks.refresh(true)`). -/
def mkDisksStats (ds : List DiskInfo) : DisksStats :=
  { disks := ds.map mkDiskStat }

/-- One element of the `networks` list of `log_networks_info`. -/
def mkNetworkStat (n : NetInfo) : NetworkStats :=
  { interface_name := n.interface_name
    mac_address := n.mac_address
    received := n.received
    transmitted := n.transmitted
    total_received := n.total_received
    total_transmitted := n.total_transmitted }

/-- Record built by `log_networks_info` (after `networks.refresh(true)`). -/
def mkNetworksStats (ns : List NetInfo) : NetworksStats :=
  { networks := ns.map mkNetworkStat }

/-- One element of the `processes` list of `log_processes_info`:
`parent_pid` is the parent pid as a string, or "Unknown" when the OS
reports no parent; `memory_usage_kb` is `process.memory() / 1024`. -/
def mkProcessStat (p : ProcInfo) : ProcessStats :=
  { pid := p.pid
    parent_pid :=
      match p.parent with
      | some parent => toString parent
      | none => "Unknown"
    name := p.name
    status := p.status
    cpu_usage := p.cpu_usage
    memory_usage_kb := p.memory / 1024
    start_time_seconds := p.start_time
    run_time_seconds := p.run_time }

/-- Record built by `log_processes_info`
(after `sys.refresh_processes(ProcessesToUpdate::All, true)`). -/
def mkProcessesStats (s : SysProviderState) : ProcessesStats :=
  { processes := s.processes.map mkProcessStat }

/-- Record built by `log_system_info`: every unavailable string field
defaults to the literal "<unknown>"; both `kernel_version` and `kernel`
are built from `System::kernel_version()` with that fallback. -/
def mkSystemStats (si : StaticSysInfo) : SystemStats :=
  { name := si.name.getD "<unknown>"
    kernel_version := si.kernel_version.getD "<unknown>"
    os_version := si.os_version.getD "<unknown>"
    os_long_version := si.long_os_version.getD "<unknown>"
    host_name := si.host_name.getD "<unknown>"
    kernel := si.kernel_version.getD "<unknown>"
    boot_time_seconds := si.boot_time
    uptime_seconds := si.uptime
    load_avg_one := si.load_one
    load_avg_five := si.load_five
    load_avg_fifteen := si.load_fifteen }

/-! ## Channels, events and the command line -/

/-- The seven named channels declared with `static_typed_channel!`. -/
inductive Channel where
  | cpu | memory | components | disks | networks | processes | system
deriving DecidableEq

/-- A published payload, tagged by its record type. -/
inductive Record where
  | cpuRec : CpuStats → Record
  | memoryRec : MemoryStats → Record
  | componentsRec : ComponentsStats → Record
  | disksRec : DisksStats → Record
  | networksRec : NetworksStats → Record
  | processesRec : ProcessesStats → Record
  | systemRec : SystemStats → Record
deriving DecidableEq

/-- Observable actions of a run: provider-handle constructions
(`System::new_all`, `*::new_with_refreshed_list`), refreshes, and channel
publishes (`CHANNEL.log(..)`). -/
inductive Event where
  | constructSystem
  | constructComponents
  | constructDisks
  | constructNetworks
  | refreshAll
  | refreshCpu
  | refreshMemory
  | refreshProcesses
  | refreshComponents
  | refreshDisks
  | refreshNetworks
  | publish : Channel → Record → Event
deriving DecidableEq

/-- The parsed command line (struct `Cli` in main.rs): one enable flag per
category, the tick interval in milliseconds, and the optional timeout in
ticks. -/
structure Cli where
  cpu : Bool
  memory : Bool
  temperature : Bool
  disks : Bool
  networks : Bool
  processes : Bool
  system : Bool
  interval : Nat := 1000
  timeout : Option Nat := none
deriving DecidableEq

/-- Which provider handles `main` holds, mirroring the four
`Option`-typed locals `system`, `components`, `disks`, `networks`.  The
handles carry no data of their own here because every read after a refresh
comes from the ambient `World`. -/
structure MainState where
  system : Option Unit
  components : Option Unit
  disks : Option Unit
  networks : Option Unit
deriving DecidableEq

/-- The conditional handle construction of main.rs lines 300..322:
`system` is `Some` iff `cpu || memory || processes`, each dedicated handle
is `Some` iff its flag is set. -/
def mainInitState (args : Cli) : MainState :=
  { system := if args.cpu || args.memory || args.processes then some () else none
    components := if args.temperature then some () else none
    disks := if args.disks then some () else none
    networks := if args.networks then some () else none }

/-- Construction and startup-refresh events of main.rs lines 300..326:
conditional handle constructions followed by `sys.refresh_all()` when the
shared handle exists. -/
def mainInitEvents (args : Cli) : List Event :=
  (if args.cpu || args.memory || args.processes then [Event.constructSystem] else [])
    ++ (if args.temperature then [Event.constructComponents] else [])
    ++ (if args.disks then [Event.constructDisks] else [])
    ++ (if args.networks then [Event.constructNetworks] else [])
    ++ (if args.cpu || args.memory || args.processes then [Event.refreshAll] else [])

/-- One iteration body of the while loop of main.rs lines 334..364, reading
provider observations from `w`.  Category order as written in main.rs:
cpu, memory, processes (inside the shared-handle block), then temperature,
disks, networks, system. -/
def mainTickEvents (args : Cli) (st : MainState) (w : World) : List Event :=
  (if args.cpu || args.memory || args.processes then
    match st.system with
    | some _ =>
      (if args.cpu then
        [Event.refreshCpu, Event.publish Channel.cpu (Record.cpuRec (mkCpuStats w.sys))]
      else [])
        ++ (if args.memory then
          [Event.refreshMemory,
            Event.publish Channel.memory (Record.memoryRec (mkMemoryStats w.sys))]
        else [])
        ++ (if args.processes then
          [Event.refreshProcesses,
            Event.publish Channel.processes (Record.processesRec (mkProcessesStats w.sys))]
        else [])
    | none => []
  else [])
    ++ (if args.temperature then
      match st.components with
      | some _ =>
        [Event.refreshComponents,
          Event.publish Channel.components (Record.componentsRec (mkComponentsStats w.comps))]
      | none => []
    else [])
    ++ (if args.disks then
      match st.disks with
      | some _ =>
        [Event.refreshDisks,
          Event.publish Channel.disks (Record.disksRec (mkDisksStats w.disks))]
      | none => []
    else [])
    ++ (if args.networks then
      match st.networks with
      | some _ =>
        [Event.refreshNetworks,
          Event.publish Channel.networks (Record.networksRec (mkNetworksStats w.nets))]
      | none => []
    else [])
    ++ (if args.system then
      [Event.publish Channel.system (Record.systemRec (mkSystemStats w.static))]
    else [])

/-! ## LoggerCollection (logger.rs) -/

/-- The fields of `struct LoggerCollection`: a `System` handle that is
always present, enable booleans for the categories that share it, and
`Option` handles for the dedicated providers. -/
structure LoggerCollection where
  cpu_enabled : Bool
  memory_enabled : Bool
  temperature : Option Unit
  disks : Option Unit
  networks : Option Unit
  processes_enabled : Bool
  system_enabled : Bool
deriving DecidableEq

/-- `LoggerCollection::new`: note that the `System` handle is built
unconditionally (`let system = System::new_all();`) before the flags are
consulted. -/
def LoggerCollection.new (args : Cli) : LoggerCollection :=
  { cpu_enabled := args.cpu
    memory_enabled := args.memory
    temperature := if args.temperature then some () else none
    disks := if args.disks then some () else none
    networks := if args.networks then some () else none
    processes_enabled := args.processes
    system_enabled := args.system }

/-- Construction events performed by `LoggerCollection::new`:
`System::new_all()` happens on every call, the dedicated handles only when
their flag is set. -/
def loggerNewEvents (args : Cli) : List Event :=
  [Event.constructSystem]
    ++ (if args.temperature then [Event.constructComponents] else [])
    ++ (if args.disks then [Event.constructDisks] else [])
    ++ (if args.networks then [Event.constructNetworks] else [])

/-- One call of `LoggerCollection::log_all`, reading provider observations
from `w`.  Category order as written in logger.rs: cpu, memory,
temperature, disks, networks, processes, system. -/
def logAllEvents (lc : LoggerCollection) (w : World) : List Event :=
  (if lc.cpu_enabled then
    [Event.refreshCpu, Event.publish Channel.cpu (Record.cpuRec (mkCpuStats w.sys))]
  else [])
    ++ (if lc.memory_enabled then
      [Event.refreshMemory,
        Event.publish Channel.memory (Record.memoryRec (mkMemoryStats w.sys))]
    else [])
    ++ (match lc.temperature with
      | some _ =>
        [Event.refreshComponents,
          Event.publish Channel.components (Record.componentsRec (mkComponentsStats w.comps))]
      | none => [])
    ++ (match lc.disks with
      | some _ =>
        [Event.refreshDisks,
          Event.publish Channel.disks (Record.disksRec (mkDisksStats w.disks))]
      | none => [])
    ++ (match lc.networks with
      | some _ =>
        [Event.refreshNetworks,
          Event.publish Channel.networks (Record.networksRec (mkNetworksStats w.nets))]
      | none => [])
    ++ (if lc.processes_enabled then
      [Event.refreshProcesses,
        Event.publish Channel.processes (Record.processesRec (mkProcessesStats w.sys))]
    else [])
    ++ (if lc.system_enabled then
      [Event.publish Channel.system (Record.systemRec (mkSystemStats w.static))]
    else [])

/-! ## The scheduler loop (main.rs lines 328..367)

Cancellation is a single atomic boolean write performed by the signal
handler; the loop reads the flag once, at the top of each iteration.  We
model a delivered signal by the index `s` of the first loop check at which
the flag is observed set (a signal arriving during the sleep of iteration
`s - 1`, or before the loop for `s = 0`); `sig = none` means no signal is
ever delivered.  `ws k` is the provider observation world during tick `k`.
The loop is given fuel; every theorem about a terminating run holds for
all sufficiently large fuel. -/

/-- Value of the `done` flag at loop check number `k`. -/
def doneFlag (sig : Option Nat) (k : Nat) : Bool :=
  match sig with
  | none => false
  | some s => decide (s ≤ k)

/-- The while condition of main.rs line 329..333:
`!done.load(..) && args.timeout.map_or(true, |t| elapsed < t)` where
`elapsed` equals the number of completed iterations `k`. -/
def continueCheck (args : Cli) (sig : Option Nat) (k : Nat) : Bool :=
  !doneFlag sig k && ((args.timeout.map fun t => decide (k < t)).getD true)

/-- Events of the remaining loop iterations, starting at iteration `k`. -/
def mainLoopEvents (args : Cli) (sig : Option Nat) (ws : Nat → World)
    (st : MainState) : Nat → Nat → List Event
  | 0, _ => []
  | fuel + 1, k =>
    if continueCheck args sig k then
      mainTickEvents args st (ws k) ++ mainLoopEvents args sig ws st fuel (k + 1)
    else []

/-- Number of loop iterations actually executed from check `k` on. -/
def numTicks (args : Cli) (sig : Option Nat) : Nat → Nat → Nat
  | 0, _ => 0
  | fuel + 1, k =>
    if continueCheck args sig k then numTicks args sig fuel (k + 1) + 1 else 0

/-- Whole-run event trace after a successful startup: handle construction
and initial refresh, then the loop from iteration 0. -/
def mainRunEvents (args : Cli) (sig : Option Nat) (ws : Nat → World)
    (fuel : Nat) : List Event :=
  mainInitEvents args ++ mainLoopEvents args sig ws (mainInitState args) fuel 0

/-- Outcome of the two fallible startup steps of main.rs lines 287..298:
whether `ctrlc::set_handler` and `WebSocketServer::start_blocking`
succeed. -/
structure StartupEnv where
  handlerOk : Bool
  serverOk : Bool
deriving DecidableEq

/-- How the process ends: a normal return from `main` (status 0) or a
panic out of an `expect` (Rust default panic exit status 101) carrying the
expect message. -/
inductive ExitResult where
  | normalExit
  | panicExit : String → ExitResult
deriving DecidableEq

/-- Process exit status for an `ExitResult`. -/
def exitCode : ExitResult → Nat
  | ExitResult.normalExit => 0
  | ExitResult.panicExit _ => 101

/-- `main`: install the signal handler, start the websocket server (each
aborting with its `expect` message on failure, before any handle is built
or any sampling happens), then construct handles and run the loop;
falling off the end of the loop returns status 0. -/
def mainRun (env : StartupEnv) (args : Cli) (sig : Option Nat)
    (ws : Nat → World) (fuel : Nat) : ExitResult × List Event :=
  if !env.handlerOk then (ExitResult.panicExit "Failed to set SIGINT handler", [])
  else if !env.serverOk then (ExitResult.panicExit "Server failed to start", [])
  else (ExitResult.normalExit, mainRunEvents args sig ws fuel)

/-! ## Observation helpers -/

/-- The channel of each publish event, in order. -/
def publishedChannels (evs : List Event) : List Channel :=
  evs.filterMap fun e =>
    match e with
    | Event.publish c _ => some c
    | _ => none

/-- The (channel, payload) pairs of the publish events, in order. -/
def publishes (evs : List Event) : List (Channel × Record) :=
  evs.filterMap fun e =>
    match e with
    | Event.publish c r => some (c, r)
    | _ => none

/-- Number of occurrences of one event in a trace. -/
def countEv (e : Event) (evs : List Event) : Nat :=
  evs.count e

/-- Number of publishes on one channel in a trace. -/
def countChannel (c : Channel) (evs : List Event) : Nat :=
  (publishedChannels evs).count c

/-- Is this flag enabled for this channel in this configuration? -/
def channelEnabled (args : Cli) : Channel → Bool
  | Channel.cpu => args.cpu
  | Channel.memory => args.memory
  | Channel.components => args.temperature
  | Channel.disks => args.disks
  | Channel.networks => args.networks
  | Channel.processes => args.processes
  | Channel.system => args.system

/-- The per-tick channel order actually produced by the main.rs loop:
processes comes third, directly after memory. -/
def mainOrderChannels (args : Cli) : List Channel :=
  (if args.cpu then [Channel.cpu] else [])
    ++ (if args.memory then [Channel.memory] else [])
    ++ (if args.processes then [Channel.processes] else [])
    ++ (if args.temperature then [Channel.components] else [])
    ++ (if args.disks then [Channel.disks] else [])
    ++ (if args.networks then [Channel.networks] else [])
    ++ (if args.system then [Channel.system] else [])

/-- The fixed category order stated by the spec (CPU, Memory, Thermal,
Disk, Network, Process, SystemIdentity), written from the words of the
spec for comparison; it coincides with the order of
`LoggerCollection::log_all`. -/
def specOrderChannels (args : Cli) : List Channel :=
  (if args.cpu then [Channel.cpu] else [])
    ++ (if args.memory then [Channel.memory] else [])
    ++ (if args.temperature then [Channel.components] else [])
    ++ (if args.disks then [Channel.disks] else [])
    ++ (if args.networks then [Channel.networks] else [])
    ++ (if args.processes then [Channel.processes] else [])
    ++ (if args.system then [Channel.system] else [])

/-! ## Durable sink (spec-modelled) -/

/-- Outcome of opening the Durable Recorder: whether a pre-existing target
file was removed first, and that the recorder is open. -/
structure DurableOutcome where
  removedExisting : Bool
  opened : Bool
deriving DecidableEq

/-- Modelled from the spec: the Durable Recorder (mcap) open step is absent
from src (main.rs only carries a TODO for the format, path and overwrite
flags).  Per the spec: if `overwrite` is true and the target path exists it
is removed before opening; if `overwrite` is false and the target exists,
startup must fail. -/
def openDurable (overwrite pathExists : Bool) : Except String DurableOutcome :=
  if pathExists then
    if overwrite then Except.ok { removedExisting := true, opened := true }
    else Except.error "durable target exists and overwrite is false"
  else Except.ok { removedExisting := false, opened := true }

/-- Modelled from the spec: a run with the durable sink selected opens the
Durable Recorder during Starting; on failure the Scheduler never enters
Running and no sampling occurs (no event trace is produced). -/
def runWithDurable (overwrite pathExists : Bool) (args : Cli)
    (sig : Option Nat) (ws : Nat → World) (fuel : Nat) :
    Except String (DurableOutcome × List Event) :=
  match openDurable overwrite pathExists with
  | Except.error e => Except.error e
  | Except.ok d => Except.ok (d, mainRunEvents args sig ws fuel)

/-! ## Concrete fixtures for witnesses and counterexamples -/

/-- A minimal provider state: no cores, no processes, all counters zero. -/
def sys0 : SysProviderState :=
  { global_cpu_usage := 0
    physical_core_count := none
    cpus := []
    total_memory := 0
    available_memory := 0
    used_memory := 0
    total_swap := 0
    used_swap := 0
    processes := [] }

/-- A static-query state with every optional field absent. -/
def static0 : StaticSysInfo :=
  { name := none
    kernel_version := none
    os_version := none
    long_os_version := none
    host_name := none
    boot_time := 0
    uptime := 0
    load_one := 0
    load_five := 0
    load_fifteen := 0 }

/-- A minimal world. -/
def w0 : World :=
  { sys := sys0, comps := [], disks := [], nets := [], static := static0 }

/-- A constant world sequence. -/
def ws0 : Nat → World := fun _ => w0

/-- Configuration enabling only temperature and processes. -/
def cfgTP : Cli :=
  { cpu := false, memory := false, temperature := true, disks := false
    networks := false, processes := true, system := false }

/-- The end-to-end configuration of the spec: cpu and memory only,
interval 100 ms, timeout 5 ticks. -/
def cfgC2 : Cli :=
  { cpu := true, memory := true, temperature := false, disks := false
    networks := false, processes := false, system := false
    interval := 100, timeout := some 5 }

/-- Configuration with every category disabled. -/
def cfgAllOff : Cli :=
  { cpu := false, memory := false, temperature := false, disks := false
    networks := false, processes := false, system := false }

/-- Configuration enabling only memory. -/
def cfgMemOnly : Cli :=
  { cpu := false, memory := true, temperature := false, disks := false
    networks := false, processes := false, system := false }

/-- Configuration enabling only cpu. -/
def cfgCpuOnly : Cli :=
  { cpu := true, memory := false, temperature := false, disks := false
    networks := false, processes := false, system := false }

/-! ## Helper lemmas -/

/-- The publish-channel sequence of one main.rs tick is exactly
`mainOrderChannels`. -/
theorem mainTick_channels (args : Cli) (w : World) :
    publishedChannels (mainTickEvents args (mainInitState args) w) =
      mainOrderChannels args := by
  rcases args with ⟨c, m, t, d, n, p, s, iv, tm⟩
  cases c <;> cases m <;> cases t <;> cases d <;> cases n <;> cases p <;> cases s <;> rfl

/-- The publish-channel sequence of one `log_all` call is exactly
`specOrderChannels`. -/
theorem logAll_channels (args : Cli) (w : World) :
    publishedChannels (logAllEvents (LoggerCollection.new args) w) =
      specOrderChannels args := by
  rcases args with ⟨c, m, t, d, n, p, s, iv, tm⟩
  cases c <;> cases m <;> cases t <;> cases d <;> cases n <;> cases p <;> cases s <;> rfl

/-- Counting over a conditional segment. -/
theorem count_if_seg (b : Bool) (l : List Channel) (c : Channel) :
    (if b then l else []).count c = if b then l.count c else 0 := by
  cases b <;> simp

/-- Each enabled channel occurs exactly once in `mainOrderChannels`,
each disabled one not at all. -/
theorem mainOrderChannels_count (args : Cli) (ch : Channel) :
    (mainOrderChannels args).count ch =
      if channelEnabled args ch then 1 else 0 := by
  cases ch <;>
    simp [mainOrderChannels, channelEnabled, List.count_append, count_if_seg,
      List.count_cons, List.count_nil]

/-- Counting over a conditional event segment. -/
theorem count_if_ev (b : Bool) (l : List Event) (e : Event) :
    (if b then l else []).count e = if b then l.count e else 0 := by
  cases b <;> simp

/-- One main.rs tick, flattened: the shared-handle guard and the four
`Option` matches resolved against `mainInitState`. -/
theorem mainTick_flat (args : Cli) (w : World) :
    mainTickEvents args (mainInitState args) w =
      (if args.cpu then
        [Event.refreshCpu, Event.publish Channel.cpu (Record.cpuRec (mkCpuStats w.sys))]
      else [])
        ++ (if args.memory then
          [Event.refreshMemory,
            Event.publish Channel.memory (Record.memoryRec (mkMemoryStats w.sys))]
        else [])
        ++ (if args.processes then
          [Event.refreshProcesses,
            Event.publish Channel.processes (Record.processesRec (mkProcessesStats w.sys))]
        else [])
        ++ (if args.temperature then
          [Event.refreshComponents,
            Event.publish Channel.components (Record.componentsRec (mkComponentsStats w.comps))]
        else [])
        ++ (if args.disks then
          [Event.refreshDisks,
            Event.publish Channel.disks (Record.disksRec (mkDisksStats w.disks))]
        else [])
        ++ (if args.networks then
          [Event.refreshNetworks,
            Event.publish Channel.networks (Record.networksRec (mkNetworksStats w.nets))]
        else [])
        ++ (if args.system then
          [Event.publish Channel.system (Record.systemRec (mkSystemStats w.static))]
        else []) := by
  rcases args with ⟨c, m, t, d, n, p, s, iv, tm⟩
  cases c <;> cases m <;> cases t <;> cases d <;> cases n <;> cases p <;> cases s <;> rfl

/-- A tick never constructs a handle. -/
theorem mainTick_count_construct (args : Cli) (w : World) :
    countEv Event.constructSystem (mainTickEvents args (mainInitState args) w) = 0 ∧
    countEv Event.constructComponents (mainTickEvents args (mainInitState args) w) = 0 ∧
    countEv Event.constructDisks (mainTickEvents args (mainInitState args) w) = 0 ∧
    countEv Event.constructNetworks (mainTickEvents args (mainInitState args) w) = 0 ∧
    countEv Event.refreshAll (mainTickEvents args (mainInitState args) w) = 0 := by
  refine ⟨?_, ?_, ?_, ?_, ?_⟩ <;>
    simp [countEv, mainTick_flat, List.count_append, count_if_ev, List.count_cons,
      List.count_nil]

/-- A tick refreshes each category exactly when its flag is set. -/
theorem mainTick_count_refresh (args : Cli) (w : World) :
    countEv Event.refreshCpu (mainTickEvents args (mainInitState args) w) =
        (if args.cpu then 1 else 0) ∧
    countEv Event.refreshMemory (mainTickEvents args (mainInitState args) w) =
        (if args.memory then 1 else 0) ∧
    countEv Event.refreshProcesses (mainTickEvents args (mainInitState args) w) =
        (if args.processes then 1 else 0) ∧
    countEv Event.refreshComponents (mainTickEvents args (mainInitState args) w) =
        (if args.temperature then 1 else 0) ∧
    countEv Event.refreshDisks (mainTickEvents args (mainInitState args) w) =
        (if args.disks then 1 else 0) ∧
    countEv Event.refreshNetworks (mainTickEvents args (mainInitState args) w) =
        (if args.networks then 1 else 0) := by
  refine ⟨?_, ?_, ?_, ?_, ?_, ?_⟩ <;>
    simp [countEv, mainTick_flat, List.count_append, count_if_ev, List.count_cons,
      List.count_nil]

/-- Once the while condition is false, the loop contributes nothing. -/
theorem mainLoopEvents_stop (args : Cli) (sig : Option Nat) (ws : Nat → World)
    (st : MainState) (fuel k : Nat) (h : continueCheck args sig k = false) :
    mainLoopEvents args sig ws st fuel k = [] := by
  cases fuel <;> simp [mainLoopEvents, h]

/-- The loop trace is the concatenation of the executed ticks. -/
theorem mainLoopEvents_join (args : Cli) (sig : Option Nat) (ws : Nat → World)
    (st : MainState) :
    ∀ fuel k, mainLoopEvents args sig ws st fuel k =
      ((List.range (numTicks args sig fuel k)).map
        fun i => mainTickEvents args st (ws (k + i))).flatten := by
  intro fuel
  induction fuel with
  | zero => intro k; simp [mainLoopEvents, numTicks]
  | succ fuel ih =>
    intro k
    by_cases h : continueCheck args sig k = true
    · have harg : ∀ i, k + 1 + i = k + (i + 1) := by omega
      simp only [mainLoopEvents, numTicks, h, if_true, ih (k + 1),
        List.range_succ_eq_map, List.map_cons, List.flatten_cons, List.map_map]
      congr 1
      apply congrArg List.flatten
      apply List.map_congr_left
      intro i _
      simp only [Function.comp_apply]
      rw [harg i]
    · have h' : continueCheck args sig k = false := by
        revert h; cases continueCheck args sig k <;> simp
      simp [mainLoopEvents, numTicks, h']

/-- Channel publish counts over the loop: each enabled channel is
published exactly once per executed tick. -/
theorem mainLoop_countChannel (args : Cli) (sig : Option Nat) (ws : Nat → World)
    (ch : Channel) :
    ∀ fuel k, countChannel ch (mainLoopEvents args sig ws (mainInitState args) fuel k) =
      numTicks args sig fuel k * (if channelEnabled args ch then 1 else 0) := by
  intro fuel
  induction fuel with
  | zero => intro k; simp [mainLoopEvents, numTicks, countChannel, publishedChannels]
  | succ fuel ih =>
    intro k
    by_cases h : continueCheck args sig k = true
    · simp only [mainLoopEvents, numTicks, h, if_true]
      have hsplit : countChannel ch
          (mainTickEvents args (mainInitState args) (ws k) ++
            mainLoopEvents args sig ws (mainInitState args) fuel (k + 1)) =
          countChannel ch (mainTickEvents args (mainInitState args) (ws k)) +
            countChannel ch (mainLoopEvents args sig ws (mainInitState args) fuel (k + 1)) := by
        simp [countChannel, publishedChannels, List.filterMap_append, List.count_append]
      rw [hsplit, ih (k + 1)]
      have htick : countChannel ch (mainTickEvents args (mainInitState args) (ws k)) =
          if channelEnabled args ch then 1 else 0 := by
        rw [countChannel, mainTick_channels, mainOrderChannels_count]
      rw [htick]
      ring
    · have h' : continueCheck args sig k = false := by
        revert h; cases continueCheck args sig k <;> simp
      simp [mainLoopEvents, numTicks, h', countChannel, publishedChannels]

/-- Event counts over the loop, given a constant per-tick count. -/
theorem mainLoop_countEv (args : Cli) (sig : Option Nat) (ws : Nat → World)
    (e : Event) (c : Nat)
    (hper : ∀ w, countEv e (mainTickEvents args (mainInitState args) w) = c) :
    ∀ fuel k, countEv e (mainLoopEvents args sig ws (mainInitState args) fuel k) =
      numTicks args sig fuel k * c := by
  intro fuel
  induction fuel with
  | zero => intro k; simp [mainLoopEvents, numTicks, countEv]
  | succ fuel ih =>
    intro k
    by_cases h : continueCheck args sig k = true
    · simp only [mainLoopEvents, numTicks, h, if_true]
      rw [countEv, List.count_append, ← countEv, ← countEv, ih (k + 1), hper (ws k)]
      ring
    · have h' : continueCheck args sig k = false := by
        revert h; cases continueCheck args sig k <;> simp
      simp [mainLoopEvents, numTicks, h', countEv]

/-- Tick count of a run limited only by a timeout. -/
theorem numTicks_timeout (args : Cli) (t : Nat) (h : args.timeout = some t) :
    ∀ fuel k, k ≤ t → t - k ≤ fuel → numTicks args none fuel k = t - k := by
  intro fuel
  induction fuel with
  | zero => intro k _ h2; simp [numTicks]; omega
  | succ fuel ih =>
    intro k h1 h2
    by_cases hk : k < t
    · have hc : continueCheck args none k = true := by
        simp [continueCheck, doneFlag, h, hk]
      rw [numTicks, if_pos hc, ih (k + 1) (by omega) (by omega)]
      omega
    · have hkt : k = t := by omega
      have hc : continueCheck args none k = false := by
        simp [continueCheck, doneFlag, h, hkt]
      rw [numTicks, if_neg (by simp [hc])]
      omega

/-- With a signal first observable at check `s`, at most `s - k` further
ticks execute. -/
theorem numTicks_signal_le (args : Cli) (s : Nat) :
    ∀ fuel k, numTicks args (some s) fuel k ≤ s - k := by
  intro fuel
  induction fuel with
  | zero => intro k; simp [numTicks]
  | succ fuel ih =>
    intro k
    by_cases h : continueCheck args (some s) k = true
    · have hks : k < s := by
        by_contra hge
        have : doneFlag (some s) k = true := by simp [doneFlag]; omega
        simp [continueCheck, this] at h
      rw [numTicks, if_pos h]
      have := ih (k + 1)
      omega
    · rw [numTicks, if_neg h]
      omega

/-- Moving the head segment past one other segment preserves the
multiset of elements. -/
theorem perm_shift {α : Type} (p q r : List α) : (p ++ (q ++ r)).Perm (q ++ (p ++ r)) := by
  rw [← List.append_assoc, ← List.append_assoc]
  exact List.perm_append_comm.append_right r

/-- Event counts distribute over concatenation. -/
theorem countEv_append (e : Event) (a b : List Event) :
    countEv e (a ++ b) = countEv e a + countEv e b := by
  simp [countEv, List.count_append]

/-- Channel publish counts distribute over concatenation. -/
theorem countChannel_append (c : Channel) (a b : List Event) :
    countChannel c (a ++ b) = countChannel c a + countChannel c b := by
  simp [countChannel, publishedChannels, List.filterMap_append, List.count_append]

/-- Event counts of the startup phase of main: conditional constructions,
one blanket `refresh_all` when the shared handle exists, and no
per-category refresh. -/
theorem mainInit_counts (args : Cli) :
    countEv Event.constructSystem (mainInitEvents args) =
        (if args.cpu || args.memory || args.processes then 1 else 0) ∧
    countEv Event.constructComponents (mainInitEvents args) =
        (if args.temperature then 1 else 0) ∧
    countEv Event.constructDisks (mainInitEvents args) =
        (if args.disks then 1 else 0) ∧
    countEv Event.constructNetworks (mainInitEvents args) =
        (if args.networks then 1 else 0) ∧
    countEv Event.refreshAll (mainInitEvents args) =
        (if args.cpu || args.memory || args.processes then 1 else 0) ∧
    countEv Event.refreshCpu (mainInitEvents args) = 0 ∧
    countEv Event.refreshMemory (mainInitEvents args) = 0 ∧
    countEv Event.refreshProcesses (mainInitEvents args) = 0 ∧
    countEv Event.refreshComponents (mainInitEvents args) = 0 ∧
    countEv Event.refreshDisks (mainInitEvents args) = 0 ∧
    countEv Event.refreshNetworks (mainInitEvents args) = 0 := by
  rcases args with ⟨c, m, t, d, n, p, s, iv, tm⟩
  cases c <;> cases m <;> cases t <;> cases d <;> cases n <;> cases p <;>
    exact ⟨rfl, rfl, rfl, rfl, rfl, rfl, rfl, rfl, rfl, rfl, rfl⟩

/-- The (channel, payload) pairs of one main.rs tick, flattened. -/
theorem publishes_mainTick (args : Cli) (w : World) :
    publishes (mainTickEvents args (mainInitState args) w) =
      (if args.cpu then [(Channel.cpu, Record.cpuRec (mkCpuStats w.sys))] else [])
        ++ (if args.memory then
          [(Channel.memory, Record.memoryRec (mkMemoryStats w.sys))] else [])
        ++ (if args.processes then
          [(Channel.processes, Record.processesRec (mkProcessesStats w.sys))] else [])
        ++ (if args.temperature then
          [(Channel.components, Record.componentsRec (mkComponentsStats w.comps))] else [])
        ++ (if args.disks then
          [(Channel.disks, Record.disksRec (mkDisksStats w.disks))] else [])
        ++ (if args.networks then
          [(Channel.networks, Record.networksRec (mkNetworksStats w.nets))] else [])
        ++ (if args.system then
          [(Channel.system, Record.systemRec (mkSystemStats w.static))] else []) := by
  rcases args with ⟨c, m, t, d, n, p, s, iv, tm⟩
  cases c <;> cases m <;> cases t <;> cases d <;> cases n <;> cases p <;> cases s <;> rfl

/-- The (channel, payload) pairs of one `log_all` call, flattened. -/
theorem publishes_logAll (args : Cli) (w : World) :
    publishes (logAllEvents (LoggerCollection.new args) w) =
      (if args.cpu then [(Channel.cpu, Record.cpuRec (mkCpuStats w.sys))] else [])
        ++ (if args.memory then
          [(Channel.memory, Record.memoryRec (mkMemoryStats w.sys))] else [])
        ++ (if args.temperature then
          [(Channel.components, Record.componentsRec (mkComponentsStats w.comps))] else [])
        ++ (if args.disks then
          [(Channel.disks, Record.disksRec (mkDisksStats w.disks))] else [])
        ++ (if args.networks then
          [(Channel.networks, Record.networksRec (mkNetworksStats w.nets))] else [])
        ++ (if args.processes then
          [(Channel.processes, Record.processesRec (mkProcessesStats w.sys))] else [])
        ++ (if args.system then
          [(Channel.system, Record.systemRec (mkSystemStats w.static))] else []) := by
  rcases args with ⟨c, m, t, d, n, p, s, iv, tm⟩
  cases c <;> cases m <;> cases t <;> cases d <;> cases n <;> cases p <;> cases s <;> rfl

/-! ## Claim theorems -/

/-- C1 counterexample: with temperature and processes enabled, one tick of
the main.rs loop publishes /processes before /components, so the enabled
categories are not sampled in the claimed fixed order CPU, Memory,
Thermal, Disk, Network, Process, SystemIdentity. -/
theorem sample_order_claim_false :
    publishedChannels (mainTickEvents cfgTP (mainInitState cfgTP) w0) ≠
      specOrderChannels cfgTP := by
  decide

/-- C1 (amended): on every tick, exactly one record is published for each
enabled category and none for any disabled one; the main.rs loop samples
in the fixed order CPU, Memory, Process, Thermal, Disk, Network,
SystemIdentity (Process third), while LoggerCollection::log_all uses the
order CPU, Memory, Thermal, Disk, Network, Process, SystemIdentity. -/
theorem sample_order_amended (args : Cli) (w : World) (ch : Channel) :
    publishedChannels (mainTickEvents args (mainInitState args) w) =
        mainOrderChannels args ∧
    publishedChannels (logAllEvents (LoggerCollection.new args) w) =
        specOrderChannels args ∧
    countChannel ch (mainTickEvents args (mainInitState args) w) =
      (if channelEnabled args ch then 1 else 0) := by
  refine ⟨mainTick_channels args w, logAll_channels args w, ?_⟩
  rw [countChannel, mainTick_channels, mainOrderChannels_count]

/-- C2: with cpu and memory enabled, every other category disabled,
timeout 5 ticks and no interrupt, the run publishes exactly 5 records on
/cpu and 5 on /memory, none on any other channel, and the process exits
with status 0. -/
theorem run_cpu_memory_five_ticks (ws : Nat → World) (fuel : Nat) (h : 5 ≤ fuel) :
    exitCode (mainRun ⟨true, true⟩ cfgC2 none ws fuel).1 = 0 ∧
    countChannel Channel.cpu (mainRun ⟨true, true⟩ cfgC2 none ws fuel).2 = 5 ∧
    countChannel Channel.memory (mainRun ⟨true, true⟩ cfgC2 none ws fuel).2 = 5 ∧
    countChannel Channel.components (mainRun ⟨true, true⟩ cfgC2 none ws fuel).2 = 0 ∧
    countChannel Channel.disks (mainRun ⟨true, true⟩ cfgC2 none ws fuel).2 = 0 ∧
    countChannel Channel.networks (mainRun ⟨true, true⟩ cfgC2 none ws fuel).2 = 0 ∧
    countChannel Channel.processes (mainRun ⟨true, true⟩ cfgC2 none ws fuel).2 = 0 ∧
    countChannel Channel.system (mainRun ⟨true, true⟩ cfgC2 none ws fuel).2 = 0 := by
  have hn : numTicks cfgC2 none fuel 0 = 5 := by
    have h5 := numTicks_timeout cfgC2 5 rfl fuel 0 (by omega) (by omega)
    simpa using h5
  have hrun : (mainRun ⟨true, true⟩ cfgC2 none ws fuel).2 =
      mainInitEvents cfgC2 ++ mainLoopEvents cfgC2 none ws (mainInitState cfgC2) fuel 0 :=
    rfl
  have hinit : ∀ ch, countChannel ch (mainInitEvents cfgC2) = 0 := by
    intro ch; cases ch <;> rfl
  refine ⟨rfl, ?_, ?_, ?_, ?_, ?_, ?_, ?_⟩ <;>
    · rw [hrun, countChannel_append, hinit, mainLoop_countChannel, hn]
      decide

/-- C2 witness: the end-to-end run at fuel 5 and the constant world. -/
theorem run_cpu_memory_five_ticks_witness :
    exitCode (mainRun ⟨true, true⟩ cfgC2 none ws0 5).1 = 0 ∧
    countChannel Channel.cpu (mainRun ⟨true, true⟩ cfgC2 none ws0 5).2 = 5 ∧
    countChannel Channel.memory (mainRun ⟨true, true⟩ cfgC2 none ws0 5).2 = 5 ∧
    countChannel Channel.components (mainRun ⟨true, true⟩ cfgC2 none ws0 5).2 = 0 ∧
    countChannel Channel.disks (mainRun ⟨true, true⟩ cfgC2 none ws0 5).2 = 0 ∧
    countChannel Channel.networks (mainRun ⟨true, true⟩ cfgC2 none ws0 5).2 = 0 ∧
    countChannel Channel.processes (mainRun ⟨true, true⟩ cfgC2 none ws0 5).2 = 0 ∧
    countChannel Channel.system (mainRun ⟨true, true⟩ cfgC2 none ws0 5).2 = 0 :=
  run_cpu_memory_five_ticks ws0 5 (by decide)

/-- Construction counts of `LoggerCollection::new`: the shared System
handle is built on every call, the dedicated handles only when enabled. -/
theorem loggerNew_counts (args : Cli) :
    countEv Event.constructSystem (loggerNewEvents args) = 1 ∧
    countEv Event.constructComponents (loggerNewEvents args) =
        (if args.temperature then 1 else 0) ∧
    countEv Event.constructDisks (loggerNewEvents args) =
        (if args.disks then 1 else 0) ∧
    countEv Event.constructNetworks (loggerNewEvents args) =
        (if args.networks then 1 else 0) := by
  rcases args with ⟨c, m, t, d, n, p, s, iv, tm⟩
  cases t <;> cases d <;> cases n <;> exact ⟨rfl, rfl, rfl, rfl⟩

/-- C3 counterexample: `LoggerCollection::new` constructs the shared
System handle (the provider handle of the cpu, memory and process
categories) even when every category is disabled; and `main` constructs it
when memory alone is enabled, although cpu and processes are disabled. -/
theorem disabled_construction_claim_false :
    Event.constructSystem ∈ loggerNewEvents cfgAllOff ∧
    Event.constructSystem ∈ mainInitEvents cfgMemOnly := by
  decide

/-- C3 (amended): a disabled category's per-category refresh is never
called, on any tick, and the dedicated Thermal/Disk/Network handles are
never constructed when disabled; but the shared System handle is
constructed (and refreshed wholesale once at startup) whenever any of
cpu, memory, processes is enabled in main.rs — and unconditionally by
LoggerCollection::new. -/
theorem disabled_never_sampled (args : Cli) (sig : Option Nat) (ws : Nat → World)
    (fuel : Nat) :
    countEv Event.constructSystem (mainRunEvents args sig ws fuel) =
        (if args.cpu || args.memory || args.processes then 1 else 0) ∧
    countEv Event.constructComponents (mainRunEvents args sig ws fuel) =
        (if args.temperature then 1 else 0) ∧
    countEv Event.constructDisks (mainRunEvents args sig ws fuel) =
        (if args.disks then 1 else 0) ∧
    countEv Event.constructNetworks (mainRunEvents args sig ws fuel) =
        (if args.networks then 1 else 0) ∧
    countEv Event.refreshCpu (mainRunEvents args sig ws fuel) =
        (if args.cpu then numTicks args sig fuel 0 else 0) ∧
    countEv Event.refreshMemory (mainRunEvents args sig ws fuel) =
        (if args.memory then numTicks args sig fuel 0 else 0) ∧
    countEv Event.refreshProcesses (mainRunEvents args sig ws fuel) =
        (if args.processes then numTicks args sig fuel 0 else 0) ∧
    countEv Event.refreshComponents (mainRunEvents args sig ws fuel) =
        (if args.temperature then numTicks args sig fuel 0 else 0) ∧
    countEv Event.refreshDisks (mainRunEvents args sig ws fuel) =
        (if args.disks then numTicks args sig fuel 0 else 0) ∧
    countEv Event.refreshNetworks (mainRunEvents args sig ws fuel) =
        (if args.networks then numTicks args sig fuel 0 else 0) ∧
    countEv Event.constructSystem (loggerNewEvents args) = 1 := by
  obtain ⟨h1, h2, h3, h4, h5, h6, h7, h8, h9, h10, h11⟩ := mainInit_counts args
  refine ⟨?_, ?_, ?_, ?_, ?_, ?_, ?_, ?_, ?_, ?_, (loggerNew_counts args).1⟩
  · rw [mainRunEvents, countEv_append, h1,
      mainLoop_countEv args sig ws Event.constructSystem 0
        (fun w => (mainTick_count_construct args w).1) fuel 0]
    simp
  · rw [mainRunEvents, countEv_append, h2,
      mainLoop_countEv args sig ws Event.constructComponents 0
        (fun w => (mainTick_count_construct args w).2.1) fuel 0]
    simp
  · rw [mainRunEvents, countEv_append, h3,
      mainLoop_countEv args sig ws Event.constructDisks 0
        (fun w => (mainTick_count_construct args w).2.2.1) fuel 0]
    simp
  · rw [mainRunEvents, countEv_append, h4,
      mainLoop_countEv args sig ws Event.constructNetworks 0
        (fun w => (mainTick_count_construct args w).2.2.2.1) fuel 0]
    simp
  · rw [mainRunEvents, countEv_append, h6,
      mainLoop_countEv args sig ws Event.refreshCpu (if args.cpu then 1 else 0)
        (fun w => (mainTick_count_refresh args w).1) fuel 0]
    cases args.cpu <;> simp
  · rw [mainRunEvents, countEv_append, h7,
      mainLoop_countEv args sig ws Event.refreshMemory (if args.memory then 1 else 0)
        (fun w => (mainTick_count_refresh args w).2.1) fuel 0]
    cases args.memory <;> simp
  · rw [mainRunEvents, countEv_append, h8,
      mainLoop_countEv args sig ws Event.refreshProcesses (if args.processes then 1 else 0)
        (fun w => (mainTick_count_refresh args w).2.2.1) fuel 0]
    cases args.processes <;> simp
  · rw [mainRunEvents, countEv_append, h9,
      mainLoop_countEv args sig ws Event.refreshComponents (if args.temperature then 1 else 0)
        (fun w => (mainTick_count_refresh args w).2.2.2.1) fuel 0]
    cases args.temperature <;> simp
  · rw [mainRunEvents, countEv_append, h10,
      mainLoop_countEv args sig ws Event.refreshDisks (if args.disks then 1 else 0)
        (fun w => (mainTick_count_refresh args w).2.2.2.2.1) fuel 0]
    cases args.disks <;> simp
  · rw [mainRunEvents, countEv_append, h11,
      mainLoop_countEv args sig ws Event.refreshNetworks (if args.networks then 1 else 0)
        (fun w => (mainTick_count_refresh args w).2.2.2.2.2) fuel 0]
    cases args.networks <;> simp

/-- C5: the cancellation handler is exactly the write that makes
`doneFlag` true from check `s` on (a single idempotent flag set); the loop
observes the flag at the top of the next iteration, so it executes no
iteration with index at least `s`, and its whole trace is precisely the
concatenation of the ticks it ran before stopping — no sampling or
publishing happens after the flag is observed. -/
theorem cancellation_stops_loop (args : Cli) (ws : Nat → World) (s fuel : Nat) :
    numTicks args (some s) fuel 0 ≤ s ∧
    mainLoopEvents args (some s) ws (mainInitState args) fuel 0 =
      ((List.range (numTicks args (some s) fuel 0)).map
        fun i => mainTickEvents args (mainInitState args) (ws i)).flatten := by
  constructor
  · have hle := numTicks_signal_le args s fuel 0
    omega
  · have hj := mainLoopEvents_join args (some s) ws (mainInitState args) fuel 0
    simpa using hj

/-- C8: when any of cpu, memory, processes is enabled, the shared System
handle is constructed exactly once over the whole run, at startup (and
exactly once per LoggerCollection::new call); the loop constructs no
handle on any tick — handles are only refreshed in place. -/
theorem shared_system_handle_once (args : Cli) (sig : Option Nat) (ws : Nat → World)
    (fuel : Nat) (h : (args.cpu || args.memory || args.processes) = true) :
    countEv Event.constructSystem (mainRunEvents args sig ws fuel) = 1 ∧
    (mainInitState args).system = some () ∧
    countEv Event.constructSystem (loggerNewEvents args) = 1 ∧
    countEv Event.constructSystem
        (mainLoopEvents args sig ws (mainInitState args) fuel 0) = 0 ∧
    countEv Event.constructComponents
        (mainLoopEvents args sig ws (mainInitState args) fuel 0) = 0 ∧
    countEv Event.constructDisks
        (mainLoopEvents args sig ws (mainInitState args) fuel 0) = 0 ∧
    countEv Event.constructNetworks
        (mainLoopEvents args sig ws (mainInitState args) fuel 0) = 0 := by
  refine ⟨?_, ?_, (loggerNew_counts args).1, ?_, ?_, ?_, ?_⟩
  · rw [mainRunEvents, countEv_append, (mainInit_counts args).1,
      mainLoop_countEv args sig ws Event.constructSystem 0
        (fun w => (mainTick_count_construct args w).1) fuel 0]
    simp [h]
  · simp [mainInitState, h]
  · rw [mainLoop_countEv args sig ws Event.constructSystem 0
      (fun w => (mainTick_count_construct args w).1) fuel 0]
    simp
  · rw [mainLoop_countEv args sig ws Event.constructComponents 0
      (fun w => (mainTick_count_construct args w).2.1) fuel 0]
    simp
  · rw [mainLoop_countEv args sig ws Event.constructDisks 0
      (fun w => (mainTick_count_construct args w).2.2.1) fuel 0]
    simp
  · rw [mainLoop_countEv args sig ws Event.constructNetworks 0
      (fun w => (mainTick_count_construct args w).2.2.2.1) fuel 0]
    simp

/-- C8 witness: the cpu-only configuration over two ticks. -/
theorem shared_system_handle_once_witness :
    countEv Event.constructSystem (mainRunEvents cfgCpuOnly none ws0 2) = 1 ∧
    (mainInitState cfgCpuOnly).system = some () ∧
    countEv Event.constructSystem (loggerNewEvents cfgCpuOnly) = 1 ∧
    countEv Event.constructSystem
        (mainLoopEvents cfgCpuOnly none ws0 (mainInitState cfgCpuOnly) 2 0) = 0 ∧
    countEv Event.constructComponents
        (mainLoopEvents cfgCpuOnly none ws0 (mainInitState cfgCpuOnly) 2 0) = 0 ∧
    countEv Event.constructDisks
        (mainLoopEvents cfgCpuOnly none ws0 (mainInitState cfgCpuOnly) 2 0) = 0 ∧
    countEv Event.constructNetworks
        (mainLoopEvents cfgCpuOnly none ws0 (mainInitState cfgCpuOnly) 2 0) = 0 :=
  shared_system_handle_once cfgCpuOnly none ws0 2 (by decide)

/-- C4: every absent optional OS field maps to its documented fallback
literal — parent pid "Unknown", sensor temperature 0.0, disk name and
mount point "Unknown", system-identity strings "<unknown>", physical core
count 0 — and the rest of the record is still built from the available
fields; absence never aborts construction. -/
theorem optional_field_fallbacks (p : ProcInfo) (c : ComponentInfo) (d : DiskInfo)
    (si : StaticSysInfo) :
    (mkProcessStat { p with parent := none }).parent_pid = "Unknown" ∧
    (mkProcessStat { p with parent := none }).pid = p.pid ∧
    (mkProcessStat { p with parent := none }).name = p.name ∧
    (mkProcessStat { p with parent := none }).status = p.status ∧
    (mkProcessStat { p with parent := none }).cpu_usage = p.cpu_usage ∧
    (mkProcessStat { p with parent := none }).memory_usage_kb = p.memory / 1024 ∧
    (mkProcessStat { p with parent := none }).start_time_seconds = p.start_time ∧
    (mkProcessStat { p with parent := none }).run_time_seconds = p.run_time ∧
    (mkComponentStat { c with temperature := none }).temperature = 0 ∧
    (mkComponentStat { c with temperature := none }).label = c.label ∧
    (mkDiskStat { d with name := none, mount_point := none }).name = "Unknown" ∧
    (mkDiskStat { d with name := none, mount_point := none }).mount_point = "Unknown" ∧
    (mkDiskStat { d with name := none, mount_point := none }).total_read_kb =
        d.total_read_bytes / 1024 ∧
    (mkDiskStat { d with name := none, mount_point := none }).read_kb =
        d.read_bytes / 1024 ∧
    physicalCoresField none = 0 ∧
    mkSystemStats
        { si with
          name := none, kernel_version := none, os_version := none,
          long_os_version := none, host_name := none } =
      { name := "<unknown>", kernel_version := "<unknown>", os_version := "<unknown>",
        os_long_version := "<unknown>", host_name := "<unknown>", kernel := "<unknown>",
        boot_time_seconds := si.boot_time, uptime_seconds := si.uptime,
        load_avg_one := si.load_one, load_avg_five := si.load_five,
        load_avg_fifteen := si.load_fifteen } := by
  refine ⟨rfl, rfl, rfl, rfl, rfl, rfl, rfl, rfl, rfl, rfl, rfl, rfl, rfl, rfl, ?_, rfl⟩
  decide

/-- C6 (spec-modelled): with overwrite false and an existing durable
target, the run fails during Starting — the Scheduler never enters Running
and no event trace is produced; with overwrite true and an existing
target, the file is removed and the Durable Recorder opens successfully. -/
theorem durable_overwrite_startup (args : Cli) (sig : Option Nat)
    (ws : Nat → World) (fuel : Nat) :
    runWithDurable false true args sig ws fuel =
      Except.error "durable target exists and overwrite is false" ∧
    openDurable true true = Except.ok { removedExisting := true, opened := true } ∧
    openDurable false false = Except.ok { removedExisting := false, opened := true } :=
  ⟨rfl, rfl, rfl⟩

/-- C7: a failure to install the SIGINT handler, or to start the
websocket server, aborts the process with the descriptive expect message
and the non-zero panic status 101, before any handle construction or
sampling — the event trace of such a run is empty. -/
theorem startup_failures_abort (args : Cli) (sig : Option Nat) (ws : Nat → World)
    (fuel : Nat) (b : Bool) :
    mainRun { handlerOk := false, serverOk := b } args sig ws fuel =
      (ExitResult.panicExit "Failed to set SIGINT handler", []) ∧
    mainRun { handlerOk := true, serverOk := false } args sig ws fuel =
      (ExitResult.panicExit "Server failed to start", []) ∧
    exitCode (ExitResult.panicExit "Failed to set SIGINT handler") = 101 ∧
    exitCode (ExitResult.panicExit "Server failed to start") = 101 :=
  ⟨rfl, rfl, rfl, rfl⟩

/-- C9 counterexample: with temperature and processes enabled, one main.rs
tick and one log_all call publish the same two records but in different
orders, so the two publish sequences are not equal. -/
theorem tick_logall_claim_false :
    publishes (mainTickEvents cfgTP (mainInitState cfgTP) w0) ≠
      publishes (logAllEvents (LoggerCollection.new cfgTP) w0) := by
  decide

/-- C9 (amended): given the same flags and the same provider state, one
main.rs tick and one log_all call publish the same records to the same
channels — each publish sequence is a permutation of the other — and the
sequences coincide exactly, unless processes is enabled together with at
least one of temperature, disks, networks, in which case only the
position of the /processes record differs. -/
theorem tick_logall_perm (args : Cli) (w : World) :
    (publishes (mainTickEvents args (mainInitState args) w)).Perm
      (publishes (logAllEvents (LoggerCollection.new args) w)) ∧
    (args.processes = false ∨
        (args.temperature = false ∧ args.disks = false ∧ args.networks = false) →
      publishes (mainTickEvents args (mainInitState args) w) =
        publishes (logAllEvents (LoggerCollection.new args) w)) := by
  rw [publishes_mainTick, publishes_logAll]
  constructor
  · simp only [List.append_assoc]
    apply List.Perm.append_left
    apply List.Perm.append_left
    refine (perm_shift _ _ _).trans ?_
    apply List.Perm.append_left
    refine (perm_shift _ _ _).trans ?_
    apply List.Perm.append_left
    exact perm_shift _ _ _
  · intro hcond
    rcases hcond with hp | ⟨ht, hd, hn⟩
    · simp [hp]
    · simp [ht, hd, hn]

/-- C9 witness: with only cpu enabled the two publish sequences are a
permutation of each other and moreover coincide. -/
theorem tick_logall_perm_witness :
    (publishes (mainTickEvents cfgCpuOnly (mainInitState cfgCpuOnly) w0)).Perm
      (publishes (logAllEvents (LoggerCollection.new cfgCpuOnly) w0)) ∧
    publishes (mainTickEvents cfgCpuOnly (mainInitState cfgCpuOnly) w0) =
      publishes (logAllEvents (LoggerCollection.new cfgCpuOnly) w0) := by
  have h := tick_logall_perm cfgCpuOnly w0
  exact ⟨h.1, h.2 (Or.inl rfl)⟩

/-- C10: in every /system record, the kernel field equals the
kernel_version field: both are built from the same kernel-version query
with the same "<unknown>" fallback (and every published /system payload is
`mkSystemStats` of the current static state, in main.rs and logger.rs
alike). -/
theorem system_kernel_fields_equal (si : StaticSysInfo) :
    (mkSystemStats si).kernel = (mkSystemStats si).kernel_version ∧
    (mkSystemStats si).kernel = si.kernel_version.getD "<unknown>" ∧
    (mkSystemStats si).kernel_version = si.kernel_version.getD "<unknown>" :=
  ⟨rfl, rfl, rfl⟩

end FoxMonitor
